import Mathlib

/-!
Verification of the packaging descriptor `setup.py` of the repository.

The descriptor is a single call to `setup(...)` with four keyword
arguments (`name`, `version`, `install_requires`, `packages`); all other
keyword arguments of the build tool are left unset.  We embed the set of
keyword arguments as a structure whose fields are `Option`-valued
(`none` = argument not passed), and the evaluation of the descriptor as
a pure function `describe : Unit → SetupArgs` returning the literal
record from the source.
-/

/-- The keyword arguments accepted by the build tool's entry point that are
relevant here.  `none` means the descriptor does not pass the argument and
the build tool uses its default/absent value. -/
structure SetupArgs where
  name : Option String := none
  version : Option String := none
  install_requires : Option (List String) := none
  packages : Option (List String) := none
  entry_points : Option (List (String × String)) := none
  scripts : Option (List String) := none
  extras_require : Option (List (String × List String)) := none
  setup_requires : Option (List String) := none
  classifiers : Option (List String) := none
deriving DecidableEq

/-- The literal record built by the `setup(...)` call in `src/setup.py`:
`name="semgrep_pre_commit_package"`, `version="1.12.0"`,
`install_requires=["semgrep==1.12.0"]`, `packages=[]`. -/
def semgrepSetupArgs : SetupArgs :=
  { name := some "semgrep_pre_commit_package"
  , version := some "1.12.0"
  , install_requires := some ["semgrep==1.12.0"]
  , packages := some [] }

/-- Evaluating the descriptor: the build tool reads `setup.py` and receives
the metadata record.  Pure; the `Unit` argument stands for one invocation. -/
def describe (_u : Unit) : SetupArgs := semgrepSetupArgs

/-- `Except`-valued view of the evaluation: the descriptor body is a single
literal call, so no error branch exists in the source and the embedding
always takes the `ok` branch. -/
def describeE (u : Unit) : Except String SetupArgs := Except.ok (describe u)

/-- Split a character list at every occurrence of the two-character
delimiter `==`, the way a requirement string is split at its operator. -/
def splitOnPin : List Char → List (List Char)
  | [] => [[]]
  | '=' :: '=' :: rest => [] :: splitOnPin rest
  | c :: rest =>
    match splitOnPin rest with
    | [] => [[c]]
    | p :: ps => (c :: p) :: ps

/-- Parse one requirement string of the `install_requires` list as an
exact-version pin `NAME==VERSION`; any other shape (no `==`, or more than
one) is not an exact pin and yields `none`. -/
def parseRequirement (s : String) : Option (String × String) :=
  match (splitOnPin s.data).map String.mk with
  | [n, v] => some (n, v)
  | _ => none

/-- The dependency set of a metadata record, as the spec's data model
presents it: the (name, exact-version) pairs recovered from the
requirement strings of `install_requires`. -/
def dependencies (a : SetupArgs) : List (String × String) :=
  (a.install_requires.getD []).filterMap parseRequirement

/-- **C1** Co-versioning invariant: for every invocation, the record's own
`version` equals the version pinned in its sole dependency entry. -/
theorem describe_coversioning (u : Unit) :
    (describe u).version = ((dependencies (describe u)).head?).map (fun p => p.2) := by
  cases u; decide

/-- **C2** Concrete-value postcondition: the record has name
`"semgrep_pre_commit_package"`, version `"1.12.0"`, and its dependency
list is exactly `[("semgrep", "1.12.0")]`. -/
theorem describe_concrete_values (u : Unit) :
    (describe u).name = some "semgrep_pre_commit_package" ∧
    (describe u).version = some "1.12.0" ∧
    dependencies (describe u) = [("semgrep", "1.12.0")] := by
  cases u; decide

/-- **C3** Empty-contents postcondition: the `packages` list of the record
is empty, so the distributable unit declares no sub-packages. -/
theorem describe_contents_empty (u : Unit) :
    (describe u).packages = some [] := by
  cases u; decide

/-- **C4** Idempotence/determinism: any two invocations of `describe`
yield equal records. -/
theorem describe_deterministic (u v : Unit) :
    describe u = describe v := by
  cases u; cases v; rfl

/-- **C5** Total success: the `Except`-valued evaluation always takes the
`ok` branch; the error branch is unreachable for every invocation. -/
theorem describeE_ok (u : Unit) :
    describeE u = Except.ok semgrepSetupArgs := by
  cases u; rfl

/-- **C6** Single exact-pin dependency: the dependency list has exactly
one entry, and every requirement string of the record parses as an
exact-version pin (an equality constraint, not a range). -/
theorem describe_single_exact_pin (u : Unit) :
    (dependencies (describe u)).length = 1 ∧
    ((describe u).install_requires.getD []).all
      (fun r => (parseRequirement r).isSome) = true := by
  cases u; decide

/-- **C7** Immutability: the record returned to the caller is, field by
field, the record constructed from the literals of the descriptor;
nothing between construction and return changes any field. -/
theorem describe_immutable (u : Unit) :
    (describe u).name = semgrepSetupArgs.name ∧
    (describe u).version = semgrepSetupArgs.version ∧
    (describe u).install_requires = semgrepSetupArgs.install_requires ∧
    (describe u).packages = semgrepSetupArgs.packages ∧
    (describe u).entry_points = semgrepSetupArgs.entry_points ∧
    (describe u).scripts = semgrepSetupArgs.scripts ∧
    (describe u).extras_require = semgrepSetupArgs.extras_require ∧
    (describe u).setup_requires = semgrepSetupArgs.setup_requires ∧
    (describe u).classifiers = semgrepSetupArgs.classifiers := by
  cases u; exact ⟨rfl, rfl, rfl, rfl, rfl, rfl, rfl, rfl, rfl⟩

/-- **C8** Frame: exactly the four fields `name`, `version`,
`install_requires`, `packages` are set by the descriptor; every other
metadata field is left at its default/absent value (`none`). -/
theorem describe_frame (u : Unit) :
    (describe u).name.isSome = true ∧
    (describe u).version.isSome = true ∧
    (describe u).install_requires.isSome = true ∧
    (describe u).packages.isSome = true ∧
    (describe u).entry_points = none ∧
    (describe u).scripts = none ∧
    (describe u).extras_require = none ∧
    (describe u).setup_requires = none ∧
    (describe u).classifiers = none := by
  cases u; exact ⟨rfl, rfl, rfl, rfl, rfl, rfl, rfl, rfl, rfl⟩

/-- **C9** Requirement-string encoding: the sole requirement string is the
concatenation of the dependency name, `"=="`, and the record's version
string, and splitting it at `"=="` recovers exactly the pair
`("semgrep", "1.12.0")`. -/
theorem describe_requirement_encoding (u : Unit) :
    (describe u).version = some "1.12.0" ∧
    (describe u).install_requires =
      some [String.append (String.append "semgrep" "==") "1.12.0"] ∧
    parseRequirement "semgrep==1.12.0" = some ("semgrep", "1.12.0") := by
  cases u; decide

/-- **C10** No self-dependency: the record's own name differs from the
name of every entry of its dependency list, so the declared dependency
relation has no cycle through this package. -/
theorem describe_no_self_dependency (u : Unit) :
    (dependencies (describe u)).all
      (fun p => decide (some p.1 ≠ (describe u).name)) = true := by
  cases u; decide
